import Mathlib

set_option linter.unusedVariables false

/-!
Shallow embedding of `src/server/app/models/LiveStream.py` (KonomiTV).

Modelling conventions:
* The process-wide dictionary `LiveStreamEntity.livestreams` (a Python `dict`, insertion
  ordered) becomes an association list `List (String × StreamFields)` keyed by the
  livestream id string.
* An "instance" is identified by its registry key (`livestream_id`); the mutable
  instance attributes live in `StreamFields`.  The class attributes `status`, `detail`
  and `updated_at` are only ever shadowed per instance by `setStatus`, which is
  equivalent to per-instance fields initialised to the class defaults.
* The class attribute `LiveStream.clients` is one list shared by every instance
  (the Python code mutates the class-level list in place and never shadows it per
  instance), so the global state carries exactly one client table.
* `time.time()` timestamps become explicit `Nat` arguments threaded into operations.
* Stream payloads are opaque `Nat` values; a `queue.Queue` is a FIFO list whose head
  is the element `get()` returns next, and `put` appends at the back.
* A Python exception escaping an operation (IndexError from a list subscript,
  ValueError from tuple destructuring of `split`, AttributeError from `None.get`
  or `None.put`) is modelled by the operation returning `none`.
* `queue.get()` blocking on an empty queue is modelled by `ReadResult.blocked`.
* `Logging.info` appends the formatted record to an explicit log list.
* The fire-and-forget `threading.Thread(LiveEncodingTask…).start()` launch has no
  effect on the state modelled here; it belongs to the external encoder subsystem.
-/

/-- Stream payload, an opaque byte chunk. -/
abbrev Chunk := Nat

/-- Client record (`LiveStreamClient`): `type` is the delivery-kind string
(`"mpegts"` or `"hls"`); `queue` is the FIFO stream-data queue, present only
for mpegts clients. -/
structure LiveStreamClient where
  type : String
  queue : Option (List Chunk)
deriving DecidableEq

/-- Mutable per-instance attributes of a `LiveStream` object. -/
structure StreamFields where
  channel_id : String
  quality : String
  livestream_id : String
  status : String
  detail : String
  updated_at : Nat
deriving DecidableEq

/-- Whole-process mutable state: the registry dictionary, the (class-level, shared)
client list, and the diagnostic log. -/
structure GlobalState where
  livestreams : List (String × StreamFields)
  clients : List (Option LiveStreamClient)
  log : List String
deriving DecidableEq

/-- Key serialisation `f'\x7bchannel_id\x7d-\x7bquality\x7d'` used both by `__new__`
and by `__init__`. -/
def joinKey (channel_id quality : String) : String :=
  channel_id ++ "-" ++ quality

/-- Dictionary lookup `cls.livestreams[livestream_id]` (first entry with the key). -/
def lookupStream (s : GlobalState) (k : String) : Option StreamFields :=
  (s.livestreams.find? (fun p => p.1 == k)).map Prod.snd

/-- Apply an in-place mutation to the instance registered under key `k`. -/
def updateStream (s : GlobalState) (k : String) (f : StreamFields → StreamFields) :
    GlobalState :=
  { s with livestreams :=
      s.livestreams.map (fun p => if p.1 = k then (p.1, f p.2) else p) }

/-- Keys of the registry, in dictionary (insertion) order. -/
def keysOf (s : GlobalState) : List String :=
  s.livestreams.map Prod.fst

/-- Class-attribute default for `detail` (the source's literal, typo included). -/
def defaultDetail : String := "ラブストリームは Offline です。"

/-- Attribute values of a freshly allocated instance before `__init__` runs:
`status`, `detail`, `updated_at` resolve to the class attributes (the class-load
timestamp is taken as 0); the `__init__`-assigned attributes are not yet set. -/
def blankFields : StreamFields :=
  { channel_id := "", quality := "", livestream_id := ""
    status := "Offline", detail := defaultDetail, updated_at := 0 }

/-- Python list index normalisation: a negative index counts from the end;
`none` is an IndexError. -/
def pyIdx (n : Nat) (i : Int) : Option Nat :=
  let j : Int := if i < 0 then (n : Int) + i else i
  if 0 ≤ j ∧ j < (n : Int) then some j.toNat else none

/-- `str.ljust(n)`: pad on the right with spaces to width `n`. -/
def ljust (s : String) (n : Nat) : String :=
  s ++ String.mk (List.replicate (n - s.length) ' ')

/-- Helper of `pySplit`: split a character list at every separator. -/
def splitChars (sep : Char) : List Char → List (List Char)
  | [] => [[]]
  | c :: cs =>
    let r := splitChars sep cs
    if c = sep then [] :: r
    else
      match r with
      | [] => [[c]]
      | t :: ts => (c :: t) :: ts

/-- Python `str.split(sep)` for a one-character separator: `''.split('-')`
gives `['']`, `'a-'.split('-')` gives `['a', '']`, and so on. -/
def pySplit (sep : Char) (s : String) : List String :=
  (splitChars sep s.data).map (fun l => String.mk l)

/-- Constructing `LiveStream(channel_id, quality)`: `LiveStreamEntity.__new__`
registers a fresh instance under the joined key only when the key is absent,
then `LiveStream.__init__` always runs on the returned instance, (re)assigning
`channel_id`, `quality` and `livestream_id`.  Returns the instance handle
(its registry key) and the new state. -/
def LiveStreamNew (channel_id quality : String) (s : GlobalState) :
    String × GlobalState :=
  let id := joinKey channel_id quality
  let s1 := if (lookupStream s id).isSome then s
    else { s with livestreams := s.livestreams ++ [(id, blankFields)] }
  let s2 := updateStream s1 id (fun f =>
    { f with channel_id := channel_id, quality := quality
             livestream_id := joinKey channel_id quality })
  (id, s2)

/-- Result of `LiveStream.read`: a dequeued chunk, the explicit `return None`
paths, or the thread blocking inside `queue.get()` on an empty queue. -/
inductive ReadResult where
  | data (b : Chunk)
  | noData
  | blocked
deriving DecidableEq

namespace LiveStream

/-- Number of connected clients: `len(list(filter(None, self.clients)))`. -/
def clientsCountL (l : List (Option LiveStreamClient)) : Nat :=
  (l.filter Option.isSome).length

/-- Number of connected clients of the (shared) client table of a state. -/
def clientsCount (s : GlobalState) : Nat :=
  clientsCountL s.clients

/-- `LiveStream.setStatus(status, detail)`: no-op when both already hold,
otherwise log one record, set both fields and stamp `updated_at := now`. -/
def setStatus (self : String) (status detail : String) (now : Nat)
    (s : GlobalState) : GlobalState :=
  match lookupStream s self with
  | none => s
  | some f =>
    if f.status = status ∧ f.detail = detail then s
    else
      let s1 := updateStream s self (fun g =>
        { g with status := status, detail := detail, updated_at := now })
      { s1 with log := s1.log ++
          ["LiveStream:" ++ f.livestream_id ++ " Status:" ++ ljust status 7 ++
            " Detail:" ++ detail] }

/-- `LiveStream.getStatus()`: snapshot `(status, detail, updated_at, clients_count)`. -/
def getStatus (self : String) (s : GlobalState) :
    Option (String × String × Nat × Nat) :=
  (lookupStream s self).map (fun f => (f.status, f.detail, f.updated_at, clientsCount s))

/-- Loop body of `getIdlingLiveStream`, iterating over the registry values in
dictionary order (by key; keys are unique in a dict).  For every instance whose
`status` is `"Idling"`, its `livestream_id` is destructured by
`channel_id, quality = livestream.livestream_id.split('-')` — `none` models the
ValueError when the split does not have exactly two parts — and
`LiveStream(channel_id, quality)` is re-constructed and collected. -/
def getIdlingGo : List String → GlobalState → List String →
    Option (List String × GlobalState)
  | [], s, acc => some (acc.reverse, s)
  | k :: ks, s, acc =>
    match lookupStream s k with
    | none => getIdlingGo ks s acc
    | some f =>
      if f.status = "Idling" then
        match pySplit '-' f.livestream_id with
        | [c, q] =>
          let r := LiveStreamNew c q s
          getIdlingGo ks r.2 (r.1 :: acc)
        | _ => none
      else getIdlingGo ks s acc

/-- `LiveStream.getIdlingLiveStream()`. -/
def getIdlingLiveStream (s : GlobalState) : Option (List String × GlobalState) :=
  getIdlingGo (keysOf s) s []

/-- The freshly appended client of `connect`: mpegts clients get a fresh empty
queue, others none. -/
def mkClient (t : String) : LiveStreamClient :=
  { type := t, queue := if t = "mpegts" then some [] else none }

/-- Step of `connect` evicting the first idling stream (if any):
`idling_livestream[0].setStatus('Offline', …)`. -/
def connectVictim (idlers : List String) (now : Nat) (s1 : GlobalState) :
    GlobalState :=
  match idlers with
  | [] => s1
  | v :: _ =>
    setStatus v "Offline"
      "新しいライブストリームが開始されたため、チューナーリソースを解放しました。" now s1

/-- Step of `connect` appending the new client slot and logging the connection
record (the displayed client id is 1-based). -/
def connectAppend (ctype : String) (f0 : StreamFields) (s3 : GlobalState) :
    GlobalState :=
  { s3 with clients := s3.clients ++ [some (mkClient ctype)]
            log := s3.log ++
              ["LiveStream:" ++ f0.livestream_id ++
                " Client Connected. Client ID: " ++
                toString ((s3.clients.length : Int) + 1)] }

/-- Step of `connect` re-checking the status after the append and recovering
`Idling → ONAir`. -/
def connectRecheck (self : String) (now : Nat) (s4 : GlobalState) : GlobalState :=
  match lookupStream s4 self with
  | some f =>
    if f.status = "Idling" then
      setStatus self "ONAir" "ライブストリームは ONAir です。" now s4
    else s4
  | none => s4

/-- `LiveStream.connect(type)`: when the stream is `Offline`, evict the first
idling stream (if any) and go `Standby` (the encoder task launch is external);
append a client slot, log, and recover `Idling → ONAir`.  Returns the new
client id (`len(self.clients) - 1` after the append) and the new state. -/
def connect (self : String) (ctype : String) (now : Nat) (s : GlobalState) :
    Option (Int × GlobalState) :=
  match lookupStream s self with
  | none => none
  | some f0 =>
    let step1 : Option GlobalState :=
      if f0.status = "Offline" then
        match getIdlingLiveStream s with
        | none => none
        | some (idlers, s1) =>
          some (setStatus self "Standby" "エンコーダーを起動しています…" now
            (connectVictim idlers now s1))
      else some s
    match step1 with
    | none => none
    | some s3 =>
      some ((s3.clients.length : Int), connectRecheck self now (connectAppend ctype f0 s3))

/-- `LiveStream.disconnect(client_id)`: when the client list is non-empty,
`self.clients[client_id] = None` (IndexError → `none` when out of range,
negative indices count from the end) and one record is logged; when the list
is empty, nothing happens. -/
def disconnect (self : String) (client_id : Int) (s : GlobalState) :
    Option GlobalState :=
  if s.clients.length > 0 then
    match pyIdx s.clients.length client_id with
    | none => none
    | some j =>
      some { s with clients := s.clients.set j none
                    log := s.log ++
                      ["LiveStream:" ++ self ++ " Client Disconnected. Client ID: " ++
                        toString (client_id + 1)] }
  else some s

/-- `LiveStream.read(client_id)`: when the list is non-empty the subscript in the
guard may raise IndexError (`none`); a tombstoned slot falls to `return None`;
on a `None` queue, `None.get` raises AttributeError, which the
`except TypeError` clause does not catch, so the exception escapes (`none`);
otherwise `get()` pops the queue front (blocking while empty). -/
def read (self : String) (client_id : Int) (s : GlobalState) :
    Option (ReadResult × GlobalState) :=
  if s.clients.length > 0 then
    match pyIdx s.clients.length client_id with
    | none => none
    | some j =>
      match s.clients.get? j with
      | none => none
      | some none => some (ReadResult.noData, s)
      | some (some c) =>
        match c.queue with
        | none => none
        | some [] => some (ReadResult.blocked, s)
        | some (b :: rest) =>
          some (ReadResult.data b,
            { s with clients := s.clients.set j (some { c with queue := some rest }) })
  else some (ReadResult.noData, s)

/-- Loop of `LiveStream.write(stream_data)`: every surviving client of type
`"mpegts"` gets the chunk appended to its queue (`None.put` would raise
AttributeError → `none`); tombstones and other types are untouched. -/
def writeGo (p : Chunk) : List (Option LiveStreamClient) →
    Option (List (Option LiveStreamClient))
  | [] => some []
  | c :: rest =>
    match c with
    | none => (writeGo p rest).map (none :: ·)
    | some cc =>
      if cc.type = "mpegts" then
        match cc.queue with
        | none => none
        | some q =>
          (writeGo p rest).map ((some { cc with queue := some (q ++ [p]) }) :: ·)
      else (writeGo p rest).map ((some cc) :: ·)

/-- `LiveStream.write(stream_data)`. -/
def write (self : String) (p : Chunk) (s : GlobalState) : Option GlobalState :=
  (writeGo p s.clients).map (fun cl => { s with clients := cl })

/-- Repeatedly `read` from one slot, collecting the chunks delivered, stopping
at the first non-data outcome. -/
def readAll (self : String) (client_id : Int) : Nat → GlobalState → List Chunk
  | 0, _ => []
  | Nat.succ k, s =>
    match read self client_id s with
    | some (ReadResult.data b, s') => b :: readAll self client_id k s'
    | _ => []

end LiveStream

/-- Run a sequence of `LiveStream(channel, quality)` constructions (the
registry's get-or-create calls). -/
def runNews : List (String × String) → GlobalState → GlobalState
  | [], s => s
  | (c, q) :: rest, s => runNews rest (LiveStreamNew c q s).2

/-- Number of calls in a construction sequence that actually construct a fresh
instance under key `k` (i.e. whose key is `k` and finds `k` absent). -/
def newCreations (k : String) : List (String × String) → GlobalState → Nat
  | [], _ => 0
  | (c, q) :: rest, s =>
    (if joinKey c q = k ∧ ¬ k ∈ keysOf s then 1 else 0) +
      newCreations k rest (LiveStreamNew c q s).2

/-- Per-entry registry well-formedness: the instance's `livestream_id` attribute
equals its dictionary key, and the key splits on `"-"` into exactly a channel
part and a quality part that re-join to the key (i.e. neither part hides an
extra hyphen). -/
def wfKey (k : String) (f : StreamFields) : Bool :=
  f.livestream_id == k &&
  (match pySplit '-' k with
   | [a, b] => (a ++ "-" ++ b) == k
   | _ => false)

/-- Registry well-formedness: keys are pairwise distinct (a dict property) and
every entry satisfies `wfKey`. -/
def wfState (s : GlobalState) : Prop :=
  (keysOf s).Nodup ∧ ∀ p ∈ s.livestreams, wfKey p.1 p.2 = true

instance (s : GlobalState) : Decidable (wfState s) := by
  unfold wfState; infer_instance

/-- Status of the instance registered under `k`. -/
def statusOf (s : GlobalState) (k : String) : Option String :=
  (lookupStream s k).map (fun f => f.status)

/-- Detail of the instance registered under `k`. -/
def detailOf (s : GlobalState) (k : String) : Option String :=
  (lookupStream s k).map (fun f => f.detail)

/-- Last-update timestamp of the instance registered under `k`. -/
def updatedOf (s : GlobalState) (k : String) : Option Nat :=
  (lookupStream s k).map (fun f => f.updated_at)

/-! ### Lookup and update lemmas for the registry -/

theorem find?_map_update (l : List (String × StreamFields)) (k : String)
    (f : StreamFields → StreamFields) :
    (l.map (fun p => if p.1 = k then (p.1, f p.2) else p)).find? (fun p => p.1 == k)
      = (l.find? (fun p => p.1 == k)).map (fun p => (p.1, f p.2)) := by
  rw [List.find?_map]
  have hcomp : ((fun p : String × StreamFields => p.1 == k) ∘
      (fun p => if p.1 = k then (p.1, f p.2) else p))
      = fun p : String × StreamFields => p.1 == k := by
    funext p
    by_cases hp : p.1 = k <;> simp [hp]
  rw [hcomp]
  cases hf : l.find? (fun p => p.1 == k) with
  | none => rfl
  | some p0 =>
    have hp0 := List.find?_some hf
    simp only [beq_iff_eq] at hp0
    simp [hp0]

theorem find?_map_update_ne (l : List (String × StreamFields)) (k k' : String)
    (hne : k' ≠ k) (f : StreamFields → StreamFields) :
    (l.map (fun p => if p.1 = k then (p.1, f p.2) else p)).find? (fun p => p.1 == k')
      = l.find? (fun p => p.1 == k') := by
  rw [List.find?_map]
  have hcomp : ((fun p : String × StreamFields => p.1 == k') ∘
      (fun p => if p.1 = k then (p.1, f p.2) else p))
      = fun p : String × StreamFields => p.1 == k' := by
    funext p
    by_cases hp : p.1 = k <;> simp [hp]
  rw [hcomp]
  cases hf : l.find? (fun p => p.1 == k') with
  | none => rfl
  | some p0 =>
    have hp0 := List.find?_some hf
    simp only [beq_iff_eq] at hp0
    have hp0k : ¬ p0.1 = k := by
      rw [hp0]
      exact hne
    simp [hp0k]

theorem lookup_updateStream_self (s : GlobalState) (k : String)
    (f : StreamFields → StreamFields) :
    lookupStream (updateStream s k f) k = (lookupStream s k).map f := by
  simp only [lookupStream, updateStream, find?_map_update]
  cases s.livestreams.find? (fun p => p.1 == k) <;> rfl

theorem lookup_updateStream_ne (s : GlobalState) (k k' : String) (hne : k' ≠ k)
    (f : StreamFields → StreamFields) :
    lookupStream (updateStream s k f) k' = lookupStream s k' := by
  simp only [lookupStream, updateStream, find?_map_update_ne _ _ _ hne]

theorem keysOf_updateStream (s : GlobalState) (k : String)
    (f : StreamFields → StreamFields) :
    keysOf (updateStream s k f) = keysOf s := by
  simp only [keysOf, updateStream, List.map_map]
  apply List.map_congr_left
  intro p _
  by_cases h : p.1 = k <;> simp [h]

theorem lookup_isSome_iff_mem (s : GlobalState) (k : String) :
    (lookupStream s k).isSome = true ↔ k ∈ keysOf s := by
  constructor
  · intro h
    obtain ⟨f, hf⟩ := Option.isSome_iff_exists.1 h
    unfold lookupStream at hf
    obtain ⟨p, hp, hpf⟩ := Option.map_eq_some'.1 hf
    have hpk := List.find?_some hp
    simp only [beq_iff_eq] at hpk
    rw [← hpk]
    exact List.mem_map.2 ⟨p, List.mem_of_find?_eq_some hp, rfl⟩
  · intro h
    obtain ⟨p, hp, hk⟩ := List.mem_map.1 h
    unfold lookupStream
    cases hfind : s.livestreams.find? (fun p => p.1 == k) with
    | some p0 => rfl
    | none =>
      exfalso
      have : (s.livestreams.find? (fun p => p.1 == k)).isSome = true :=
        List.find?_isSome.2 ⟨p, hp, beq_iff_eq.2 hk⟩
      rw [hfind] at this
      exact Bool.noConfusion this

/-! ### Facts about `LiveStreamNew` -/

theorem LiveStreamNew_fst (c q : String) (s : GlobalState) :
    (LiveStreamNew c q s).1 = joinKey c q := rfl

theorem LiveStreamNew_clients (c q : String) (s : GlobalState) :
    ((LiveStreamNew c q s).2).clients = s.clients := by
  simp only [LiveStreamNew, updateStream]
  by_cases h : (lookupStream s (joinKey c q)).isSome = true <;> simp [h]

theorem LiveStreamNew_log (c q : String) (s : GlobalState) :
    ((LiveStreamNew c q s).2).log = s.log := by
  simp only [LiveStreamNew, updateStream]
  by_cases h : (lookupStream s (joinKey c q)).isSome = true <;> simp [h]

theorem keysOf_LiveStreamNew_of_mem (c q : String) (s : GlobalState)
    (h : joinKey c q ∈ keysOf s) :
    keysOf (LiveStreamNew c q s).2 = keysOf s := by
  have hs : (lookupStream s (joinKey c q)).isSome = true :=
    (lookup_isSome_iff_mem s (joinKey c q)).2 h
  simp only [LiveStreamNew, hs, if_true, keysOf_updateStream]

theorem keysOf_LiveStreamNew_of_not_mem (c q : String) (s : GlobalState)
    (h : ¬ joinKey c q ∈ keysOf s) :
    keysOf (LiveStreamNew c q s).2 = keysOf s ++ [joinKey c q] := by
  have hs : (lookupStream s (joinKey c q)).isSome = false := by
    cases hh : (lookupStream s (joinKey c q)).isSome with
    | false => rfl
    | true => exact absurd ((lookup_isSome_iff_mem s (joinKey c q)).1 hh) h
  simp only [LiveStreamNew, hs, Bool.false_eq_true, if_false, keysOf_updateStream]
  simp [keysOf]

theorem mem_keysOf_LiveStreamNew (c q : String) (s : GlobalState) (k : String)
    (h : k ∈ keysOf s) : k ∈ keysOf (LiveStreamNew c q s).2 := by
  by_cases hm : joinKey c q ∈ keysOf s
  · rw [keysOf_LiveStreamNew_of_mem c q s hm]
    exact h
  · rw [keysOf_LiveStreamNew_of_not_mem c q s hm]
    exact List.mem_append_left _ h

theorem self_mem_keysOf_LiveStreamNew (c q : String) (s : GlobalState) :
    joinKey c q ∈ keysOf (LiveStreamNew c q s).2 := by
  by_cases hm : joinKey c q ∈ keysOf s
  · rw [keysOf_LiveStreamNew_of_mem c q s hm]
    exact hm
  · rw [keysOf_LiveStreamNew_of_not_mem c q s hm]
    exact List.mem_append_right _ (List.mem_singleton.2 rfl)

theorem lookup_LiveStreamNew_self (c q : String) (s : GlobalState) :
    lookupStream (LiveStreamNew c q s).2 (joinKey c q)
      = some { (lookupStream s (joinKey c q)).getD blankFields with
          channel_id := c, quality := q, livestream_id := joinKey c q } := by
  cases hh : lookupStream s (joinKey c q) with
  | some f =>
    simp only [LiveStreamNew, hh, Option.isSome_some, if_true, lookup_updateStream_self,
      Option.getD_some]
    rfl
  | none =>
    have hfind : s.livestreams.find? (fun p => p.1 == joinKey c q) = none := by
      unfold lookupStream at hh
      exact Option.map_eq_none'.1 hh
    simp only [LiveStreamNew, hh, Option.isSome_none, Bool.false_eq_true, if_false,
      lookup_updateStream_self]
    have happ : lookupStream
        { s with livestreams := s.livestreams ++ [(joinKey c q, blankFields)] }
        (joinKey c q) = some blankFields := by
      simp only [lookupStream, List.find?_append, hfind, Option.none_or]
      simp [List.find?_cons]
    rw [happ]
    rfl

theorem lookup_LiveStreamNew_ne (c q : String) (s : GlobalState) (k : String)
    (hk : k ≠ joinKey c q) (hmem : joinKey c q ∈ keysOf s) :
    lookupStream (LiveStreamNew c q s).2 k = lookupStream s k := by
  have hs : (lookupStream s (joinKey c q)).isSome = true :=
    (lookup_isSome_iff_mem s (joinKey c q)).2 hmem
  simp only [LiveStreamNew, hs, if_true, lookup_updateStream_ne _ _ _ hk]

theorem statusOf_LiveStreamNew (c q : String) (s : GlobalState) (k : String)
    (hmem : joinKey c q ∈ keysOf s) :
    statusOf (LiveStreamNew c q s).2 k = statusOf s k := by
  by_cases hk : k = joinKey c q
  · subst hk
    rw [statusOf, lookup_LiveStreamNew_self]
    obtain ⟨f, hf⟩ :=
      Option.isSome_iff_exists.1 ((lookup_isSome_iff_mem s (joinKey c q)).2 hmem)
    rw [statusOf, hf]
    simp [hf]
  · rw [statusOf, lookup_LiveStreamNew_ne c q s k hk hmem, statusOf]

theorem detailOf_LiveStreamNew (c q : String) (s : GlobalState) (k : String)
    (hmem : joinKey c q ∈ keysOf s) :
    detailOf (LiveStreamNew c q s).2 k = detailOf s k := by
  by_cases hk : k = joinKey c q
  · subst hk
    rw [detailOf, lookup_LiveStreamNew_self]
    obtain ⟨f, hf⟩ :=
      Option.isSome_iff_exists.1 ((lookup_isSome_iff_mem s (joinKey c q)).2 hmem)
    rw [detailOf, hf]
    simp [hf]
  · rw [detailOf, lookup_LiveStreamNew_ne c q s k hk hmem, detailOf]

theorem updatedOf_LiveStreamNew (c q : String) (s : GlobalState) (k : String)
    (hmem : joinKey c q ∈ keysOf s) :
    updatedOf (LiveStreamNew c q s).2 k = updatedOf s k := by
  by_cases hk : k = joinKey c q
  · subst hk
    rw [updatedOf, lookup_LiveStreamNew_self]
    obtain ⟨f, hf⟩ :=
      Option.isSome_iff_exists.1 ((lookup_isSome_iff_mem s (joinKey c q)).2 hmem)
    rw [updatedOf, hf]
    simp [hf]
  · rw [updatedOf, lookup_LiveStreamNew_ne c q s k hk hmem, updatedOf]

/-! ### Facts about `setStatus` -/

namespace LiveStream

theorem setStatus_clients (self st d : String) (now : Nat) (s : GlobalState) :
    (setStatus self st d now s).clients = s.clients := by
  unfold setStatus
  cases hl : lookupStream s self with
  | none => rfl
  | some f =>
    by_cases hc : f.status = st ∧ f.detail = d
    · simp [hc]
    · simp [hc, updateStream]

theorem setStatus_keysOf (self st d : String) (now : Nat) (s : GlobalState) :
    keysOf (setStatus self st d now s) = keysOf s := by
  unfold setStatus
  cases hl : lookupStream s self with
  | none => rfl
  | some f =>
    by_cases hc : f.status = st ∧ f.detail = d
    · simp [hc]
    · have := keysOf_updateStream s self (fun g =>
        { g with status := st, detail := d, updated_at := now })
      simp only [hc, if_false]
      simpa [keysOf, updateStream] using this

theorem setStatus_noop (self st d : String) (now : Nat) (s : GlobalState)
    (f : StreamFields) (h : lookupStream s self = some f)
    (hs : f.status = st) (hd : f.detail = d) :
    setStatus self st d now s = s := by
  unfold setStatus
  rw [h]
  simp [hs, hd]

theorem setStatus_of_absent (self st d : String) (now : Nat) (s : GlobalState)
    (h : lookupStream s self = none) :
    setStatus self st d now s = s := by
  unfold setStatus
  rw [h]

theorem lookup_setStatus_self (self st d : String) (now : Nat) (s : GlobalState)
    (f : StreamFields) (h : lookupStream s self = some f)
    (hne : ¬ (f.status = st ∧ f.detail = d)) :
    lookupStream (setStatus self st d now s) self
      = some { f with status := st, detail := d, updated_at := now } := by
  unfold setStatus
  rw [h]
  simp only [hne, if_false]
  have : lookupStream { updateStream s self (fun g =>
      { g with status := st, detail := d, updated_at := now }) with
        log := (updateStream s self (fun g =>
          { g with status := st, detail := d, updated_at := now })).log ++
          ["LiveStream:" ++ f.livestream_id ++ " Status:" ++ ljust st 7 ++
            " Detail:" ++ d] } self
      = lookupStream (updateStream s self (fun g =>
        { g with status := st, detail := d, updated_at := now })) self := rfl
  rw [this, lookup_updateStream_self, h]
  rfl

theorem lookup_setStatus_ne (self st d : String) (now : Nat) (s : GlobalState)
    (k : String) (hk : k ≠ self) :
    lookupStream (setStatus self st d now s) k = lookupStream s k := by
  unfold setStatus
  cases hl : lookupStream s self with
  | none => rfl
  | some f =>
    by_cases hc : f.status = st ∧ f.detail = d
    · simp [hc]
    · simp only [hc, if_false]
      have : lookupStream { updateStream s self (fun g =>
          { g with status := st, detail := d, updated_at := now }) with
            log := (updateStream s self (fun g =>
              { g with status := st, detail := d, updated_at := now })).log ++
              ["LiveStream:" ++ f.livestream_id ++ " Status:" ++ ljust st 7 ++
                " Detail:" ++ d] } k
          = lookupStream (updateStream s self (fun g =>
            { g with status := st, detail := d, updated_at := now })) k := rfl
      rw [this, lookup_updateStream_ne _ _ _ hk]

theorem setStatus_log_of_update (self st d : String) (now : Nat) (s : GlobalState)
    (f : StreamFields) (h : lookupStream s self = some f)
    (hne : ¬ (f.status = st ∧ f.detail = d)) :
    (setStatus self st d now s).log = s.log ++
      ["LiveStream:" ++ f.livestream_id ++ " Status:" ++ ljust st 7 ++
        " Detail:" ++ d] := by
  unfold setStatus
  rw [h]
  simp [hne, updateStream]

theorem statusOf_setStatus_ne (self st d : String) (now : Nat) (s : GlobalState)
    (k : String) (hk : k ≠ self) :
    statusOf (setStatus self st d now s) k = statusOf s k := by
  rw [statusOf, lookup_setStatus_ne _ _ _ _ _ _ hk, statusOf]

theorem detailOf_setStatus_ne (self st d : String) (now : Nat) (s : GlobalState)
    (k : String) (hk : k ≠ self) :
    detailOf (setStatus self st d now s) k = detailOf s k := by
  rw [detailOf, lookup_setStatus_ne _ _ _ _ _ _ hk, detailOf]

theorem updatedOf_setStatus_ne (self st d : String) (now : Nat) (s : GlobalState)
    (k : String) (hk : k ≠ self) :
    updatedOf (setStatus self st d now s) k = updatedOf s k := by
  rw [updatedOf, lookup_setStatus_ne _ _ _ _ _ _ hk, updatedOf]

end LiveStream

/-! ### Index and list helper lemmas -/

theorem pyIdx_ofNat (n j : Nat) (h : j < n) : pyIdx n (j : Int) = some j := by
  have h0 : ¬ ((j : Int) < 0) := by omega
  have h1 : (0 : Int) ≤ (j : Int) ∧ (j : Int) < (n : Int) := by omega
  simp [pyIdx, h0, h1]

theorem pyIdx_some (n : Nat) (i : Int) (j : Nat) (h : pyIdx n i = some j) :
    j < n ∧ 0 < n := by
  unfold pyIdx at h
  by_cases h0 : i < 0
  · simp only [h0, if_true] at h
    by_cases h1 : (0 : Int) ≤ (n : Int) + i ∧ (n : Int) + i < (n : Int)
    · rw [if_pos h1] at h
      injection h with hj
      omega
    · rw [if_neg h1] at h
      exact absurd h (by simp)
  · simp only [h0, if_false] at h
    by_cases h1 : (0 : Int) ≤ i ∧ i < (n : Int)
    · rw [if_pos h1] at h
      injection h with hj
      omega
    · rw [if_neg h1] at h
      exact absurd h (by simp)

theorem pyIdx_neg (n : Nat) (i : Int) (hneg : i < 0) (hge : 0 ≤ (n : Int) + i) :
    pyIdx n i = some ((n : Int) + i).toNat := by
  have h1 : (0 : Int) ≤ (n : Int) + i ∧ (n : Int) + i < (n : Int) := by omega
  simp [pyIdx, hneg, h1]

theorem get?_set_self {α : Type} (l : List α) (j : Nat) (a : α) (h : j < l.length) :
    (l.set j a).get? j = some a := by
  rw [List.get?_set_eq]
  obtain ⟨b, hb⟩ : ∃ b, l.get? j = some b := by
    cases hg : l.get? j with
    | some b => exact ⟨b, rfl⟩
    | none => exact absurd (List.get?_eq_none.1 hg) (by omega)
  rw [hb]
  rfl

theorem set_getsame {α : Type} (l : List α) (j : Nat) (a : α)
    (h : l.get? j = some a) : l.set j a = l := by
  induction l generalizing j with
  | nil => cases h
  | cons x xs ih =>
    cases j with
    | zero =>
      simp only [List.get?] at h
      injection h with h
      simp [List.set, h]
    | succ j =>
      simp only [List.get?] at h
      simp [List.set, ih j h]

theorem set_append_length {α : Type} (l : List α) (x y : α) :
    (l ++ [x]).set l.length y = l ++ [y] := by
  induction l with
  | nil => rfl
  | cons a l ih => simp [List.set, ih]

namespace LiveStream

theorem clientsCountL_append_none (l : List (Option LiveStreamClient)) :
    clientsCountL (l ++ [none]) = clientsCountL l := by
  simp [clientsCountL, List.filter_append]

theorem clientsCountL_append_some (l : List (Option LiveStreamClient))
    (c : LiveStreamClient) :
    clientsCountL (l ++ [some c]) = clientsCountL l + 1 := by
  simp [clientsCountL, List.filter_append]

theorem clientsCountL_set_none (l : List (Option LiveStreamClient)) (j : Nat)
    (c : LiveStreamClient) (h : l.get? j = some (some c)) :
    clientsCountL (l.set j none) + 1 = clientsCountL l := by
  induction l generalizing j with
  | nil => cases h
  | cons x xs ih =>
    cases j with
    | zero =>
      simp only [List.get?] at h
      injection h with h
      simp [List.set, clientsCountL, List.filter_cons, h]
    | succ j =>
      simp only [List.get?] at h
      have := ih j h
      cases x with
      | none => simpa [clientsCountL, List.set, List.filter_cons] using this
      | some cx => simpa [clientsCountL, List.set, List.filter_cons] using this

end LiveStream

/-! ### Well-formedness and the idling scan -/

theorem wf_lookup (s : GlobalState) (k : String) (f : StreamFields)
    (hwf : wfState s) (h : lookupStream s k = some f) :
    f.livestream_id = k ∧ ∃ a b, pySplit '-' k = [a, b] ∧ joinKey a b = k := by
  unfold lookupStream at h
  obtain ⟨p, hp, hpf⟩ := Option.map_eq_some'.1 h
  have hpk := List.find?_some hp
  simp only [beq_iff_eq] at hpk
  have hw := hwf.2 p (List.mem_of_find?_eq_some hp)
  unfold wfKey at hw
  rw [Bool.and_eq_true] at hw
  obtain ⟨hw1, hw2⟩ := hw
  constructor
  · have h1 := beq_iff_eq.1 hw1
    rw [hpf, hpk] at h1
    exact h1
  · rw [hpk] at hw2
    cases hsp : pySplit '-' k with
    | nil =>
      rw [hsp] at hw2
      exact Bool.noConfusion hw2
    | cons a t =>
      cases t with
      | nil =>
        rw [hsp] at hw2
        exact Bool.noConfusion hw2
      | cons b t2 =>
        cases t2 with
        | nil =>
          rw [hsp] at hw2
          exact ⟨a, b, rfl, beq_iff_eq.1 hw2⟩
        | cons x t3 =>
          rw [hsp] at hw2
          exact Bool.noConfusion hw2

theorem wfState_LiveStreamNew (c q : String) (s : GlobalState)
    (hmem : joinKey c q ∈ keysOf s) (hwf : wfState s) :
    wfState (LiveStreamNew c q s).2 := by
  have hs : (lookupStream s (joinKey c q)).isSome = true :=
    (lookup_isSome_iff_mem s (joinKey c q)).2 hmem
  constructor
  · rw [keysOf_LiveStreamNew_of_mem c q s hmem]
    exact hwf.1
  · intro p hp
    simp only [LiveStreamNew, hs, if_true, updateStream] at hp
    obtain ⟨p0, hp0, hpe⟩ := List.mem_map.1 hp
    have hw := hwf.2 p0 hp0
    by_cases hk : p0.1 = joinKey c q
    · rw [if_pos hk] at hpe
      rw [← hpe]
      unfold wfKey at hw ⊢
      rw [Bool.and_eq_true] at hw ⊢
      refine ⟨?_, ?_⟩
      · simp [hk]
      · exact hw.2
    · rw [if_neg hk] at hpe
      rw [← hpe]
      exact hw

namespace LiveStream

theorem getIdlingGo_cons_absent (k : String) (ks : List String) (s : GlobalState)
    (acc : List String) (hlook : lookupStream s k = none) :
    getIdlingGo (k :: ks) s acc = getIdlingGo ks s acc := by
  simp only [getIdlingGo, hlook]

theorem getIdlingGo_cons_not_idling (k : String) (ks : List String)
    (s : GlobalState) (acc : List String) (f : StreamFields)
    (hlook : lookupStream s k = some f) (hst : ¬ f.status = "Idling") :
    getIdlingGo (k :: ks) s acc = getIdlingGo ks s acc := by
  simp only [getIdlingGo, hlook, hst, if_false]

theorem getIdlingGo_cons_idling (k : String) (ks : List String) (s : GlobalState)
    (acc : List String) (f : StreamFields) (a b : String)
    (hlook : lookupStream s k = some f) (hst : f.status = "Idling")
    (hsp : pySplit '-' f.livestream_id = [a, b]) :
    getIdlingGo (k :: ks) s acc
      = getIdlingGo ks (LiveStreamNew a b s).2 ((joinKey a b) :: acc) := by
  simp only [getIdlingGo, hlook, hst, hsp, if_true]
  rfl

theorem getIdlingGo_clients_log (ks : List String) :
    ∀ (s : GlobalState) (acc l : List String) (s' : GlobalState),
    getIdlingGo ks s acc = some (l, s') →
    s'.clients = s.clients ∧ s'.log = s.log := by
  induction ks with
  | nil =>
    intro s acc l s' h
    simp only [getIdlingGo] at h
    injection h with h
    injection h with h1 h2
    subst h2
    exact ⟨rfl, rfl⟩
  | cons k ks ih =>
    intro s acc l s' h
    cases hlook : lookupStream s k with
    | none =>
      rw [getIdlingGo_cons_absent k ks s acc hlook] at h
      exact ih s acc l s' h
    | some f =>
      by_cases hst : f.status = "Idling"
      · cases hsp3 : pySplit '-' f.livestream_id with
        | nil =>
          rw [getIdlingGo] at h
          rw [hlook] at h
          simp only [hst, if_true, hsp3] at h
          exact Option.noConfusion h
        | cons a t =>
          cases t with
          | nil =>
            rw [getIdlingGo] at h
            rw [hlook] at h
            simp only [hst, if_true, hsp3] at h
            exact Option.noConfusion h
          | cons b t2 =>
            cases t2 with
            | nil =>
              rw [getIdlingGo_cons_idling k ks s acc f a b hlook hst hsp3] at h
              obtain ⟨h1, h2⟩ := ih _ _ _ _ h
              rw [h1, h2, LiveStreamNew_clients, LiveStreamNew_log]
              exact ⟨rfl, rfl⟩
            | cons x t3 =>
              rw [getIdlingGo] at h
              rw [hlook] at h
              simp only [hst, if_true, hsp3] at h
              exact Option.noConfusion h
      · rw [getIdlingGo_cons_not_idling k ks s acc f hlook hst] at h
        exact ih s acc l s' h

end LiveStream

namespace LiveStream

theorem getIdlingGo_spec (ks : List String) :
    ∀ (s : GlobalState) (acc : List String),
    wfState s → (∀ k ∈ ks, k ∈ keysOf s) →
    ∃ s', getIdlingGo ks s acc
        = some (acc.reverse ++
            ks.filter (fun k => decide (statusOf s k = some "Idling")), s') ∧
      s'.clients = s.clients ∧ s'.log = s.log ∧ keysOf s' = keysOf s ∧
      (∀ k, statusOf s' k = statusOf s k) ∧
      (∀ k, detailOf s' k = detailOf s k) ∧
      (∀ k, updatedOf s' k = updatedOf s k) ∧ wfState s' := by
  induction ks with
  | nil =>
    intro s acc hwf hks
    refine ⟨s, ?_, rfl, rfl, rfl, fun k => rfl, fun k => rfl, fun k => rfl, hwf⟩
    simp [getIdlingGo]
  | cons k ks ih =>
    intro s acc hwf hks
    have hkmem : k ∈ keysOf s := hks k (List.mem_cons_self k ks)
    obtain ⟨f, hlook⟩ :=
      Option.isSome_iff_exists.1 ((lookup_isSome_iff_mem s k).2 hkmem)
    by_cases hst : f.status = "Idling"
    · obtain ⟨hid, a, b, hsp, hjoin⟩ := wf_lookup s k f hwf hlook
      have hsp' : pySplit '-' f.livestream_id = [a, b] := by
        rw [hid]
        exact hsp
      have hmem' : joinKey a b ∈ keysOf s := by
        rw [hjoin]
        exact hkmem
      have hstep := getIdlingGo_cons_idling k ks s acc f a b hlook hst hsp'
      have hwf1 : wfState (LiveStreamNew a b s).2 := wfState_LiveStreamNew a b s hmem' hwf
      have hkeys1 : keysOf (LiveStreamNew a b s).2 = keysOf s :=
        keysOf_LiveStreamNew_of_mem a b s hmem'
      have hks1 : ∀ k' ∈ ks, k' ∈ keysOf (LiveStreamNew a b s).2 := by
        intro k' hk'
        rw [hkeys1]
        exact hks k' (List.mem_cons_of_mem _ hk')
      obtain ⟨s2, hgo, hcl, hlg, hkeys2, hstat, hdet, hupd, hwf2⟩ :=
        ih (LiveStreamNew a b s).2 (joinKey a b :: acc) hwf1 hks1
      have hpred : ks.filter
            (fun k' => decide (statusOf (LiveStreamNew a b s).2 k' = some "Idling"))
          = ks.filter (fun k' => decide (statusOf s k' = some "Idling")) := by
        apply List.filter_congr
        intro x hx
        rw [statusOf_LiveStreamNew a b s x hmem']
      have hkidl : (decide (statusOf s k = some "Idling")) = true := by
        simp [statusOf, hlook, hst]
      have hlst : (joinKey a b :: acc).reverse ++ ks.filter
            (fun k' => decide (statusOf (LiveStreamNew a b s).2 k' = some "Idling"))
          = acc.reverse ++
            (k :: ks).filter (fun k' => decide (statusOf s k' = some "Idling")) := by
        rw [List.reverse_cons, hpred, List.filter_cons, hkidl]
        simp [hjoin]
      refine ⟨s2, ?_, ?_, ?_, ?_, ?_, ?_, ?_, hwf2⟩
      · rw [hstep, hgo, hlst]
      · rw [hcl, LiveStreamNew_clients]
      · rw [hlg, LiveStreamNew_log]
      · rw [hkeys2, hkeys1]
      · intro x
        rw [hstat x, statusOf_LiveStreamNew a b s x hmem']
      · intro x
        rw [hdet x, detailOf_LiveStreamNew a b s x hmem']
      · intro x
        rw [hupd x, updatedOf_LiveStreamNew a b s x hmem']
    · have hstep := getIdlingGo_cons_not_idling k ks s acc f hlook hst
      have hks' : ∀ k' ∈ ks, k' ∈ keysOf s := by
        intro k' hk'
        exact hks k' (List.mem_cons_of_mem _ hk')
      obtain ⟨s2, hgo, hcl, hlg, hkeys2, hstat, hdet, hupd, hwf2⟩ := ih s acc hwf hks'
      have hkidl : (decide (statusOf s k = some "Idling")) = false := by
        apply decide_eq_false
        simp [statusOf, hlook]
        exact hst
      refine ⟨s2, ?_, hcl, hlg, hkeys2, hstat, hdet, hupd, hwf2⟩
      rw [hstep, hgo, List.filter_cons, hkidl]
      simp

end LiveStream


namespace LiveStream

theorem connectVictim_clients (idlers : List String) (now : Nat) (s1 : GlobalState) :
    (connectVictim idlers now s1).clients = s1.clients := by
  cases idlers with
  | nil => rfl
  | cons v vs => exact setStatus_clients v "Offline" _ now s1

theorem connectRecheck_clients (self : String) (now : Nat) (s4 : GlobalState) :
    (connectRecheck self now s4).clients = s4.clients := by
  unfold connectRecheck
  split
  · split
    · exact setStatus_clients self "ONAir" _ now s4
    · rfl
  · rfl

theorem connectAppend_clients (ctype : String) (f0 : StreamFields)
    (s3 : GlobalState) :
    (connectAppend ctype f0 s3).clients = s3.clients ++ [some (mkClient ctype)] := rfl

theorem connectAppend_lookup (ctype : String) (f0 : StreamFields)
    (s3 : GlobalState) (k : String) :
    lookupStream (connectAppend ctype f0 s3) k = lookupStream s3 k := rfl

theorem connectRecheck_of_not_idling (self : String) (now : Nat)
    (s4 : GlobalState) (f4 : StreamFields) (h : lookupStream s4 self = some f4)
    (hni : ¬ f4.status = "Idling") :
    connectRecheck self now s4 = s4 := by
  unfold connectRecheck
  split
  next f heq =>
    rw [h] at heq
    injection heq with heq
    subst heq
    rw [if_neg hni]
  next heq => rfl

theorem connect_eq_offline (self ctype : String) (now : Nat) (s : GlobalState)
    (f0 : StreamFields) (idlers : List String) (s1 : GlobalState)
    (hlook : lookupStream s self = some f0) (hoff : f0.status = "Offline")
    (hidle : getIdlingLiveStream s = some (idlers, s1)) :
    connect self ctype now s
      = some ((((setStatus self "Standby" "エンコーダーを起動しています…" now
            (connectVictim idlers now s1)).clients.length : Int)),
          connectRecheck self now (connectAppend ctype f0
            (setStatus self "Standby" "エンコーダーを起動しています…" now
              (connectVictim idlers now s1)))) := by
  unfold connect
  split
  next heq =>
    rw [hlook] at heq
    exact Option.noConfusion heq
  next f0x heq =>
    rw [hlook] at heq
    injection heq with heq
    subst heq
    rw [if_pos hoff, hidle]

theorem connect_eq_not_offline (self ctype : String) (now : Nat) (s : GlobalState)
    (f0 : StreamFields) (hlook : lookupStream s self = some f0)
    (hoff : ¬ f0.status = "Offline") :
    connect self ctype now s
      = some (((s.clients.length : Int)),
          connectRecheck self now (connectAppend ctype f0 s)) := by
  unfold connect
  split
  next heq =>
    rw [hlook] at heq
    exact Option.noConfusion heq
  next f0x heq =>
    rw [hlook] at heq
    injection heq with heq
    subst heq
    rw [if_neg hoff]

theorem connect_eq_offline_noidle (self ctype : String) (now : Nat)
    (s : GlobalState) (f0 : StreamFields) (hlook : lookupStream s self = some f0)
    (hoff : f0.status = "Offline") (hidle : getIdlingLiveStream s = none) :
    connect self ctype now s = none := by
  unfold connect
  split
  next heq => rfl
  next f0x heq =>
    rw [hlook] at heq
    injection heq with heq
    subst heq
    rw [if_pos hoff, hidle]

theorem connect_absent (self ctype : String) (now : Nat) (s : GlobalState)
    (hlook : lookupStream s self = none) :
    connect self ctype now s = none := by
  unfold connect
  split
  next heq => rfl
  next f0x heq =>
    rw [hlook] at heq
    exact Option.noConfusion heq

theorem connect_some_inv (self t : String) (now : Nat) (s : GlobalState)
    (cid : Int) (s' : GlobalState) (h : connect self t now s = some (cid, s')) :
    cid = (s.clients.length : Int) ∧
    s'.clients = s.clients ++ [some (mkClient t)] := by
  cases hlook : lookupStream s self with
  | none =>
    rw [connect_absent self t now s hlook] at h
    exact Option.noConfusion h
  | some f0 =>
    by_cases hoff : f0.status = "Offline"
    · cases hidle : getIdlingLiveStream s with
      | none =>
        rw [connect_eq_offline_noidle self t now s f0 hlook hoff hidle] at h
        exact Option.noConfusion h
      | some pr =>
        obtain ⟨idlers, s1⟩ := pr
        rw [connect_eq_offline self t now s f0 idlers s1 hlook hoff hidle] at h
        injection h with h
        rw [Prod.mk.injEq] at h
        obtain ⟨h1, h2⟩ := h
        have hgo : getIdlingGo (keysOf s) s [] = some (idlers, s1) := hidle
        have hcl1 : s1.clients = s.clients :=
          (getIdlingGo_clients_log (keysOf s) s [] idlers s1 hgo).1
        have hc3 : (setStatus self "Standby" "エンコーダーを起動しています…" now
            (connectVictim idlers now s1)).clients = s.clients := by
          rw [setStatus_clients, connectVictim_clients, hcl1]
        constructor
        · rw [← h1, hc3]
        · rw [← h2, connectRecheck_clients, connectAppend_clients, hc3]
    · rw [connect_eq_not_offline self t now s f0 hlook hoff] at h
      injection h with h
      rw [Prod.mk.injEq] at h
      obtain ⟨h1, h2⟩ := h
      constructor
      · rw [← h1]
      · rw [← h2, connectRecheck_clients, connectAppend_clients]

end LiveStream

/-! ### Behaviour of `read`, `disconnect` and `write` on the client table -/

/-- Invariant every slot created by `connect` satisfies: an mpegts client always
carries a queue. -/
def clientOk (c : Option LiveStreamClient) : Bool :=
  match c with
  | none => true
  | some cc => !(decide (cc.type = "mpegts")) || cc.queue.isSome

/-- Effect of one `write` on one slot: mpegts clients get the chunk appended,
every other slot is untouched. -/
def putOne (p : Chunk) (c : Option LiveStreamClient) : Option LiveStreamClient :=
  match c with
  | none => none
  | some cc =>
    if cc.type = "mpegts" then
      some { cc with queue := cc.queue.map (fun q => q ++ [p]) }
    else some cc

namespace LiveStream

theorem writeGo_eq_map (p : Chunk) (l : List (Option LiveStreamClient))
    (h : ∀ c ∈ l, clientOk c = true) :
    writeGo p l = some (l.map (putOne p)) := by
  induction l with
  | nil => rfl
  | cons c rest ih =>
    have hc := h c (List.mem_cons_self c rest)
    have hrest : ∀ c' ∈ rest, clientOk c' = true :=
      fun c' hc' => h c' (List.mem_cons_of_mem _ hc')
    cases c with
    | none => simp [writeGo, putOne, ih hrest]
    | some cc =>
      by_cases ht : cc.type = "mpegts"
      · have hq0 : cc.queue.isSome = true := by
          simp [clientOk, ht] at hc
          exact hc
        obtain ⟨q, hq⟩ := Option.isSome_iff_exists.1 hq0
        simp [writeGo, putOne, ht, hq, ih hrest]
      · simp [writeGo, putOne, ht, ih hrest]

theorem write_eq_map (self : String) (p : Chunk) (s : GlobalState)
    (h : ∀ c ∈ s.clients, clientOk c = true) :
    write self p s = some { s with clients := s.clients.map (putOne p) } := by
  unfold write
  rw [writeGo_eq_map p s.clients h]
  rfl

theorem read_empty (self : String) (cid : Int) (s : GlobalState)
    (h : s.clients = []) :
    read self cid s = some (ReadResult.noData, s) := by
  unfold read
  rw [if_neg]
  rw [h]
  simp

theorem read_oob (self : String) (cid : Int) (s : GlobalState)
    (hpos : s.clients.length > 0) (hidx : pyIdx s.clients.length cid = none) :
    read self cid s = none := by
  unfold read
  rw [if_pos hpos]
  split
  · rfl
  next j heq =>
    rw [hidx] at heq
    exact Option.noConfusion heq

theorem read_tombstone (self : String) (cid : Int) (s : GlobalState) (j : Nat)
    (hpos : s.clients.length > 0) (hidx : pyIdx s.clients.length cid = some j)
    (hslot : s.clients.get? j = some none) :
    read self cid s = some (ReadResult.noData, s) := by
  unfold read
  rw [if_pos hpos]
  split
  next heq =>
    rw [hidx] at heq
    exact Option.noConfusion heq
  next j' heq =>
    rw [hidx] at heq
    injection heq with heq
    subst heq
    split
    next heq2 =>
      rw [hslot] at heq2
      exact Option.noConfusion heq2
    next heq2 => rfl
    next cc heq2 =>
      rw [hslot] at heq2
      injection heq2 with heq2
      exact Option.noConfusion heq2

theorem read_noqueue (self : String) (cid : Int) (s : GlobalState) (j : Nat)
    (cc : LiveStreamClient)
    (hpos : s.clients.length > 0) (hidx : pyIdx s.clients.length cid = some j)
    (hslot : s.clients.get? j = some (some cc)) (hq : cc.queue = none) :
    read self cid s = none := by
  unfold read
  rw [if_pos hpos]
  split
  next heq => rfl
  next j' heq =>
    rw [hidx] at heq
    injection heq with heq
    subst heq
    split
    next heq2 => rfl
    next heq2 =>
      rw [hslot] at heq2
      injection heq2 with heq2
      exact Option.noConfusion heq2
    next cc' heq2 =>
      rw [hslot] at heq2
      injection heq2 with heq2
      injection heq2 with heq2
      subst heq2
      split
      next hq2 => rfl
      next q hq2 =>
        rw [hq] at hq2
        exact Option.noConfusion hq2
      next b rest hq2 =>
        rw [hq] at hq2
        exact Option.noConfusion hq2

theorem read_data (self : String) (cid : Int) (s : GlobalState) (j : Nat)
    (cc : LiveStreamClient) (b : Chunk) (bs : List Chunk)
    (hidx : pyIdx s.clients.length cid = some j)
    (hslot : s.clients.get? j = some (some cc)) (hq : cc.queue = some (b :: bs)) :
    read self cid s = some (ReadResult.data b,
      { s with clients := s.clients.set j (some { cc with queue := some bs }) }) := by
  have hpos : s.clients.length > 0 := (pyIdx_some _ _ _ hidx).2
  unfold read
  rw [if_pos hpos]
  split
  next heq =>
    rw [hidx] at heq
    exact Option.noConfusion heq
  next j' heq =>
    rw [hidx] at heq
    injection heq with heq
    subst heq
    split
    next heq2 =>
      rw [hslot] at heq2
      exact Option.noConfusion heq2
    next heq2 =>
      rw [hslot] at heq2
      injection heq2 with heq2
      exact Option.noConfusion heq2
    next cc' heq2 =>
      rw [hslot] at heq2
      injection heq2 with heq2
      injection heq2 with heq2
      subst heq2
      split
      next hq2 =>
        rw [hq] at hq2
        exact Option.noConfusion hq2
      next hq2 =>
        rw [hq] at hq2
        injection hq2 with hq2
        exact List.noConfusion hq2
      next b' rest hq2 =>
        rw [hq] at hq2
        injection hq2 with hq2
        injection hq2 with hb hrest
        subst hb
        subst hrest
        rfl

theorem disconnect_empty (self : String) (cid : Int) (s : GlobalState)
    (h : s.clients = []) :
    disconnect self cid s = some s := by
  unfold disconnect
  rw [if_neg]
  rw [h]
  simp

theorem disconnect_oob (self : String) (cid : Int) (s : GlobalState)
    (hpos : s.clients.length > 0) (hidx : pyIdx s.clients.length cid = none) :
    disconnect self cid s = none := by
  unfold disconnect
  rw [if_pos hpos]
  split
  · rfl
  next j heq =>
    rw [hidx] at heq
    exact Option.noConfusion heq

theorem disconnect_inrange (self : String) (cid : Int) (s : GlobalState) (j : Nat)
    (hidx : pyIdx s.clients.length cid = some j) :
    disconnect self cid s = some
      { s with
        clients := s.clients.set j none,
        log := s.log ++
          ["LiveStream:" ++ self ++ " Client Disconnected. Client ID: " ++
            toString (cid + 1)] } := by
  have hpos : s.clients.length > 0 := (pyIdx_some _ _ _ hidx).2
  unfold disconnect
  rw [if_pos hpos]
  split
  next heq =>
    rw [hidx] at heq
    exact Option.noConfusion heq
  next j' heq =>
    rw [hidx] at heq
    injection heq with heq
    subst heq
    rfl

end LiveStream

namespace LiveStream

theorem readAll_drains (self : String) (j : Nat) (q : List Chunk) :
    ∀ (s : GlobalState) (cc : LiveStreamClient),
    s.clients.get? j = some (some cc) → cc.queue = some q →
    readAll self (j : Int) q.length s = q := by
  induction q with
  | nil =>
    intro s cc hj hq
    rfl
  | cons b bs ih =>
    intro s cc hj hq
    have hlt : j < s.clients.length := by
      obtain ⟨hlt, _⟩ := List.get?_eq_some.1 hj
      exact hlt
    have hidx : pyIdx s.clients.length (j : Int) = some j := pyIdx_ofNat _ j hlt
    have hr := read_data self (j : Int) s j cc b bs hidx hj hq
    show readAll self (j : Int) (bs.length + 1) s = b :: bs
    simp only [readAll, hr]
    congr 1
    apply ih
    · exact get?_set_self _ j _ hlt
    · rfl

end LiveStream

/-! ### Registry construction sequences -/

theorem newCreations_eq_zero (k : String) (calls : List (String × String)) :
    ∀ s : GlobalState, k ∈ keysOf s → newCreations k calls s = 0 := by
  induction calls with
  | nil => intro s h; rfl
  | cons cq rest ih =>
    intro s h
    obtain ⟨c, q⟩ := cq
    simp only [newCreations]
    rw [if_neg (by
      intro hcond
      exact hcond.2 h)]
    rw [Nat.zero_add]
    exact ih _ (mem_keysOf_LiveStreamNew c q s k h)

theorem newCreations_le_one (k : String) (calls : List (String × String)) :
    ∀ s : GlobalState, newCreations k calls s ≤ 1 := by
  induction calls with
  | nil => intro s; exact Nat.zero_le 1
  | cons cq rest ih =>
    intro s
    obtain ⟨c, q⟩ := cq
    simp only [newCreations]
    by_cases hcond : joinKey c q = k ∧ ¬ k ∈ keysOf s
    · rw [if_pos hcond]
      have hmem : k ∈ keysOf (LiveStreamNew c q s).2 := by
        rw [← hcond.1]
        exact self_mem_keysOf_LiveStreamNew c q s
      rw [newCreations_eq_zero k rest _ hmem]
    · rw [if_neg hcond, Nat.zero_add]
      exact ih _

theorem keysOf_runNews (calls : List (String × String)) :
    ∀ s : GlobalState, ∃ t, keysOf (runNews calls s) = keysOf s ++ t := by
  induction calls with
  | nil =>
    intro s
    exact ⟨[], by simp [runNews]⟩
  | cons cq rest ih =>
    intro s
    obtain ⟨c, q⟩ := cq
    obtain ⟨t, ht⟩ := ih (LiveStreamNew c q s).2
    by_cases hm : joinKey c q ∈ keysOf s
    · refine ⟨t, ?_⟩
      simp only [runNews]
      rw [ht, keysOf_LiveStreamNew_of_mem c q s hm]
    · refine ⟨joinKey c q :: t, ?_⟩
      simp only [runNews]
      rw [ht, keysOf_LiveStreamNew_of_not_mem c q s hm]
      simp

/-! ### Concrete fixtures used by witnesses and counterexamples -/

/-- The empty process state (fresh interpreter, no instance constructed yet). -/
def emptyState : GlobalState := ⟨[], [], []⟩

/-- State after `LiveStream('ch1', '1080p')` and `LiveStream('ch2', '1080p')`
on a fresh process: two registered streams, both `Offline`, no client. -/
def twoStreams : GlobalState :=
  (LiveStreamNew "ch2" "1080p" ((LiveStreamNew "ch1" "1080p" emptyState).2)).2

/-- One registered stream with a single connected mpegts client slot. -/
def oneClientState : GlobalState :=
  { livestreams := [("ch-1080",
      { blankFields with channel_id := "ch", quality := "1080"
                         livestream_id := "ch-1080" })]
    clients := [some (LiveStream.mkClient "mpegts")], log := [] }

/-- One registered stream whose only client slot is already tombstoned. -/
def tombState : GlobalState :=
  { livestreams := [("ch-1080",
      { blankFields with channel_id := "ch", quality := "1080"
                         livestream_id := "ch-1080" })]
    clients := [none], log := [] }

/-! ### Claims -/

/-- C1: for every sequence of `LiveStream` constructions (the registry's
get-or-create) with the same `(channel, quality)` key, every call returns the
same instance handle (the key `joinKey c q` it is registered under), at most
one call ever constructs a fresh instance for that key, and the registry key
list only ever grows by appending — no entry is ever removed. -/
theorem C1_registry_get_or_create (calls : List (String × String))
    (s : GlobalState) (c q : String) :
    (LiveStreamNew c q s).1 = joinKey c q ∧
    newCreations (joinKey c q) calls s ≤ 1 ∧
    ∃ t, keysOf (runNews calls s) = keysOf s ++ t :=
  ⟨LiveStreamNew_fst c q s, newCreations_le_one (joinKey c q) calls s,
    keysOf_runNews calls s⟩

/-- C2 (code bug): the claim says each LiveStream owns its own client table,
but `clients` is a class attribute of `LiveStream` — a single Python list
shared by every instance and mutated in place.  Evidence: on a fresh process
with two streams, `"ch1-1080p"` reports `clients_count = 0`; after a single
`connect` on the *other* stream `"ch2-1080p"`, `"ch1-1080p"` reports
`clients_count = 1`. -/
theorem C2_shared_client_table_bug :
    (LiveStream.getStatus "ch1-1080p" twoStreams).map (fun t => t.2.2.2)
      = some 0 ∧
    (LiveStream.connect "ch2-1080p" "mpegts" 0 twoStreams).map
        (fun r => (LiveStream.getStatus "ch1-1080p" r.2).map (fun t => t.2.2.2))
      = some (some 1) := by
  constructor
  · rfl
  · rfl

/-- C4 counterexample: on a non-empty client table, `read` with an
out-of-range clientID does not return "no data" — the subscript
`self.clients[client_id]` in the guard raises an uncaught IndexError
(modelled by the `none` result), contradicting the claim that every
nonexistent slot yields "no data" without raising. -/
theorem C4_counterexample :
    LiveStream.read "ch-1080" 1 oneClientState = none := by rfl

/-- C4 (amended): `read(clientID)` returns "no data" immediately (without
blocking or raising) when the client table is empty, or when the clientID is
in range (Python indexing) and that slot is tombstoned; but when the table is
non-empty and the clientID is out of range, `read` raises IndexError from the
guard's subscript, and when the in-range slot holds a client with no queue
(the hls/PullDelivery case) `None.get` raises AttributeError, which the
`except TypeError` clause does not catch — in both error cases the exception
escapes instead of "no data" being returned. -/
theorem C4_read_no_data (s : GlobalState) (self : String) (cid : Int) :
    (s.clients = [] → LiveStream.read self cid s = some (ReadResult.noData, s)) ∧
    (∀ j, pyIdx s.clients.length cid = some j →
      (s.clients.get? j = some none →
        LiveStream.read self cid s = some (ReadResult.noData, s)) ∧
      (∀ cc, s.clients.get? j = some (some cc) → cc.queue = none →
        LiveStream.read self cid s = none)) ∧
    (¬ s.clients = [] → pyIdx s.clients.length cid = none →
      LiveStream.read self cid s = none) := by
  refine ⟨fun h => LiveStream.read_empty self cid s h, fun j hj => ⟨?_, ?_⟩, ?_⟩
  · intro hs
    exact LiveStream.read_tombstone self cid s j (pyIdx_some _ _ _ hj).2 hj hs
  · intro cc hs hq
    exact LiveStream.read_noqueue self cid s j cc (pyIdx_some _ _ _ hj).2 hj hs hq
  · intro hne hn
    exact LiveStream.read_oob self cid s (List.length_pos.2 hne) hn

/-- C4 witness: reading the tombstoned slot 0 returns "no data" with the
state unchanged. -/
theorem C4_witness :
    LiveStream.read "ch-1080" 0 tombState = some (ReadResult.noData, tombState) :=
  ((C4_read_no_data tombState "ch-1080" 0).2.1 0 (by decide)).1 (by decide)

/-- C5 counterexample: on a non-empty client table, `disconnect` with an
out-of-range clientID is not a no-op — the assignment
`self.clients[client_id] = None` raises an uncaught IndexError (modelled by
the `none` result), contradicting the claim that it never raises. -/
theorem C5_counterexample :
    LiveStream.disconnect "ch-1080" 5 oneClientState = none := by rfl

/-- C5 (amended): `disconnect(clientID)` is a silent no-op when the client
table is empty; when the clientID is in range (Python indexing) it tombstones
that slot (and only logs), is a client-table no-op with `clientsCount`
unchanged when the slot is already tombstoned, and a second `disconnect` with
the same clientID leaves the client table exactly as after the first; but
when the table is non-empty and the clientID is out of range it raises
IndexError. -/
theorem C5_disconnect_idempotent (s : GlobalState) (self : String) (cid : Int) :
    (s.clients = [] → LiveStream.disconnect self cid s = some s) ∧
    (∀ j, pyIdx s.clients.length cid = some j →
      ∃ s', LiveStream.disconnect self cid s = some s' ∧
        s'.clients = s.clients.set j none ∧
        (s.clients.get? j = some none →
          s'.clients = s.clients ∧
          LiveStream.clientsCount s' = LiveStream.clientsCount s) ∧
        ∃ s'', LiveStream.disconnect self cid s' = some s'' ∧
          s''.clients = s'.clients) ∧
    (¬ s.clients = [] → pyIdx s.clients.length cid = none →
      LiveStream.disconnect self cid s = none) := by
  refine ⟨fun h => LiveStream.disconnect_empty self cid s h, fun j hj => ?_, ?_⟩
  · refine ⟨_, LiveStream.disconnect_inrange self cid s j hj, rfl, ?_, ?_⟩
    · intro htomb
      have hset : s.clients.set j none = s.clients := set_getsame s.clients j none htomb
      constructor
      · exact hset
      · show LiveStream.clientsCountL (s.clients.set j none) = _
        rw [hset]
        rfl
    · have hj' : pyIdx (s.clients.set j none).length cid = some j := by
        rw [List.length_set]
        exact hj
      refine ⟨_, LiveStream.disconnect_inrange self cid _ j hj', ?_⟩
      show (s.clients.set j none).set j none = s.clients.set j none
      exact List.set_set none none s.clients j
  · intro hne hn
    exact LiveStream.disconnect_oob self cid s (List.length_pos.2 hne) hn

/-- C5 witness: disconnecting the already-tombstoned slot 0 succeeds, leaves
the client table unchanged and `clientsCount` unchanged, and is idempotent. -/
theorem C5_witness :
    ∃ s', LiveStream.disconnect "ch-1080" 0 tombState = some s' ∧
      s'.clients = tombState.clients.set 0 none ∧
      (tombState.clients.get? 0 = some none →
        s'.clients = tombState.clients ∧
        LiveStream.clientsCount s' = LiveStream.clientsCount tombState) ∧
      ∃ s'', LiveStream.disconnect "ch-1080" 0 s' = some s'' ∧
        s''.clients = s'.clients :=
  (C5_disconnect_idempotent tombState "ch-1080" 0).2.1 0 (by decide)

/-- C8: whenever `connect` returns a clientID, an immediate `disconnect` on
that clientID succeeds and restores `clientsCount` to its value before the
`connect` (net zero). -/
theorem C8_connect_disconnect_net_zero (s : GlobalState) (self t : String)
    (now : Nat) (cid : Int) (s1 : GlobalState)
    (h : LiveStream.connect self t now s = some (cid, s1)) :
    ∃ s2, LiveStream.disconnect self cid s1 = some s2 ∧
      LiveStream.clientsCount s2 = LiveStream.clientsCount s := by
  obtain ⟨hcid, hcl⟩ := LiveStream.connect_some_inv self t now s cid s1 h
  have hlen1 : s1.clients.length = s.clients.length + 1 := by
    rw [hcl]
    simp
  have hidx : pyIdx s1.clients.length cid = some s.clients.length := by
    rw [hlen1, hcid]
    exact pyIdx_ofNat _ _ (by omega)
  refine ⟨_, LiveStream.disconnect_inrange self cid s1 s.clients.length hidx, ?_⟩
  show LiveStream.clientsCountL (s1.clients.set s.clients.length none)
      = LiveStream.clientsCountL s.clients
  rw [hcl, set_append_length, LiveStream.clientsCountL_append_none]

/-- C8 witness: a concrete connect/disconnect round trip on a fresh
two-stream process is net zero on `clientsCount`. -/
theorem C8_witness :
    ∃ cid s1 s2, LiveStream.connect "ch1-1080p" "mpegts" 3 twoStreams
        = some (cid, s1) ∧
      LiveStream.disconnect "ch1-1080p" cid s1 = some s2 ∧
      LiveStream.clientsCount s2 = LiveStream.clientsCount twoStreams := by
  cases hc : LiveStream.connect "ch1-1080p" "mpegts" 3 twoStreams with
  | none => exact absurd hc (by decide)
  | some r =>
    obtain ⟨cid, s1⟩ := r
    obtain ⟨s2, hd, hcount⟩ :=
      C8_connect_disconnect_net_zero twoStreams "ch1-1080p" "mpegts" 3 cid s1 hc
    exact ⟨cid, s1, s2, rfl, hd, hcount⟩

/-- C6: `setStatus(st, d)` is a complete no-op (state unchanged: no field
update, no timestamp, no diagnostic record) when the current status and detail
already equal `(st, d)`; otherwise it sets status and detail, stamps
`updated_at` with the call time, and appends exactly one diagnostic record.
Consequently of two consecutive identical calls only the first can update
`updated_at`: the second leaves the state exactly as the first left it. -/
theorem C6_setStatus_idempotent (s : GlobalState) (self st d : String)
    (t1 t2 : Nat) (f : StreamFields) (h : lookupStream s self = some f) :
    ((f.status = st ∧ f.detail = d) →
      LiveStream.setStatus self st d t1 s = s) ∧
    (¬ (f.status = st ∧ f.detail = d) →
      statusOf (LiveStream.setStatus self st d t1 s) self = some st ∧
      detailOf (LiveStream.setStatus self st d t1 s) self = some d ∧
      updatedOf (LiveStream.setStatus self st d t1 s) self = some t1 ∧
      ∃ r, (LiveStream.setStatus self st d t1 s).log = s.log ++ [r]) ∧
    LiveStream.setStatus self st d t2 (LiveStream.setStatus self st d t1 s)
      = LiveStream.setStatus self st d t1 s := by
  refine ⟨?_, ?_, ?_⟩
  · intro hc
    exact LiveStream.setStatus_noop self st d t1 s f h hc.1 hc.2
  · intro hc
    have hl := LiveStream.lookup_setStatus_self self st d t1 s f h hc
    refine ⟨?_, ?_, ?_, ?_⟩
    · rw [statusOf, hl]
      rfl
    · rw [detailOf, hl]
      rfl
    · rw [updatedOf, hl]
      rfl
    · exact ⟨_, LiveStream.setStatus_log_of_update self st d t1 s f h hc⟩
  · by_cases hc : f.status = st ∧ f.detail = d
    · rw [LiveStream.setStatus_noop self st d t1 s f h hc.1 hc.2,
        LiveStream.setStatus_noop self st d t2 s f h hc.1 hc.2]
    · have hl := LiveStream.lookup_setStatus_self self st d t1 s f h hc
      exact LiveStream.setStatus_noop self st d t2 _ _ hl rfl rfl

/-- C6 witness: on a fresh stream (`Offline`, default detail), re-asserting the
current status/detail is a no-op; a real transition sets the new status; and a
repeated identical transition with a later timestamp changes nothing. -/
theorem C6_witness :
    LiveStream.setStatus "ch1-1080p" "Offline" defaultDetail 9 twoStreams
        = twoStreams ∧
    statusOf (LiveStream.setStatus "ch1-1080p" "ONAir" "on" 9 twoStreams)
        "ch1-1080p" = some "ONAir" ∧
    LiveStream.setStatus "ch1-1080p" "ONAir" "on" 12
        (LiveStream.setStatus "ch1-1080p" "ONAir" "on" 9 twoStreams)
      = LiveStream.setStatus "ch1-1080p" "ONAir" "on" 9 twoStreams := by
  have h : lookupStream twoStreams "ch1-1080p"
      = some { channel_id := "ch1", quality := "1080p"
               livestream_id := "ch1-1080p", status := "Offline"
               detail := defaultDetail, updated_at := 0 } := by rfl
  exact ⟨(C6_setStatus_idempotent twoStreams "ch1-1080p" "Offline" defaultDetail
      9 0 _ h).1 ⟨rfl, rfl⟩,
    ((C6_setStatus_idempotent twoStreams "ch1-1080p" "ONAir" "on"
      9 0 _ h).2.1 (by decide)).1,
    (C6_setStatus_idempotent twoStreams "ch1-1080p" "ONAir" "on"
      9 12 _ h).2.2⟩

/-- C7: under the invariant every `connect`-created slot satisfies (an mpegts
slot always carries a queue), `write p` succeeds, appends `p` to the queue of
every non-tombstoned mpegts slot, leaves every other slot (tombstones and
non-mpegts clients) untouched, and per slot the queue contents are handed to
successive `read` calls in FIFO order. -/
theorem C7_broadcast_fifo (s : GlobalState) (self : String) (p : Chunk)
    (h : ∀ c ∈ s.clients, clientOk c = true) :
    ∃ s', LiveStream.write self p s = some s' ∧
      s'.clients.length = s.clients.length ∧
      (∀ j cc q, s.clients.get? j = some (some cc) → cc.type = "mpegts" →
        cc.queue = some q →
        s'.clients.get? j = some (some { cc with queue := some (q ++ [p]) })) ∧
      (∀ j cc, s.clients.get? j = some (some cc) → ¬ cc.type = "mpegts" →
        s'.clients.get? j = some (some cc)) ∧
      (∀ j, s.clients.get? j = some none → s'.clients.get? j = some none) ∧
      (∀ j cc q, s.clients.get? j = some (some cc) → cc.queue = some q →
        LiveStream.readAll self (j : Int) q.length s = q) := by
  refine ⟨_, LiveStream.write_eq_map self p s h, ?_, ?_, ?_, ?_, ?_⟩
  · show (s.clients.map (putOne p)).length = _
    exact List.length_map _ _
  · intro j cc q hj ht hq
    show (s.clients.map (putOne p)).get? j = _
    rw [List.get?_map, hj]
    simp [putOne, ht, hq]
  · intro j cc hj ht
    show (s.clients.map (putOne p)).get? j = _
    rw [List.get?_map, hj]
    simp [putOne, ht]
  · intro j hj
    show (s.clients.map (putOne p)).get? j = _
    rw [List.get?_map, hj]
    rfl
  · intro j cc q hj hq
    exact LiveStream.readAll_drains self j q s cc hj hq

/-- One registered stream with two connected mpegts clients, both queues empty. -/
def twoClientsState : GlobalState :=
  { livestreams := [("ch-1080",
      { blankFields with channel_id := "ch", quality := "1080"
                         livestream_id := "ch-1080" })]
    clients := [some (LiveStream.mkClient "mpegts"),
      some (LiveStream.mkClient "mpegts")], log := [] }

/-- C7 witness: broadcasting chunk 7 to the two-mpegts-client table. -/
theorem C7_witness :
    ∃ s', LiveStream.write "ch-1080" 7 twoClientsState = some s' ∧
      s'.clients.length = twoClientsState.clients.length ∧
      (∀ j cc q, twoClientsState.clients.get? j = some (some cc) →
        cc.type = "mpegts" → cc.queue = some q →
        s'.clients.get? j = some (some { cc with queue := some (q ++ [7]) })) ∧
      (∀ j cc, twoClientsState.clients.get? j = some (some cc) →
        ¬ cc.type = "mpegts" → s'.clients.get? j = some (some cc)) ∧
      (∀ j, twoClientsState.clients.get? j = some none →
        s'.clients.get? j = some none) ∧
      (∀ j cc q, twoClientsState.clients.get? j = some (some cc) →
        cc.queue = some q →
        LiveStream.readAll "ch-1080" (j : Int) q.length twoClientsState = q) :=
  C7_broadcast_fifo twoClientsState "ch-1080" 7 (by decide)

/-- C9: two distinct `(channel, quality)` pairs whose joined serialisations
collide (e.g. a hyphen inside the channel id) address the same registry entry:
both constructions return the same handle, the second construction registers
nothing new (same single instance), and it overwrites the shared instance's
`channel_id` and `quality` attributes with its own arguments. -/
theorem C9_key_collision (c1 q1 c2 q2 : String) (s : GlobalState)
    (hkey : joinKey c1 q1 = joinKey c2 q2) (hne : (c1, q1) ≠ (c2, q2)) :
    (LiveStreamNew c1 q1 s).1
        = (LiveStreamNew c2 q2 (LiveStreamNew c1 q1 s).2).1 ∧
    keysOf (LiveStreamNew c2 q2 (LiveStreamNew c1 q1 s).2).2
        = keysOf (LiveStreamNew c1 q1 s).2 ∧
    ∃ f, lookupStream (LiveStreamNew c2 q2 (LiveStreamNew c1 q1 s).2).2
          (joinKey c1 q1) = some f ∧
      f.channel_id = c2 ∧ f.quality = q2 := by
  have hmem : joinKey c2 q2 ∈ keysOf (LiveStreamNew c1 q1 s).2 := by
    rw [← hkey]
    exact self_mem_keysOf_LiveStreamNew c1 q1 s
  refine ⟨?_, keysOf_LiveStreamNew_of_mem c2 q2 _ hmem, ?_⟩
  · rw [LiveStreamNew_fst, LiveStreamNew_fst, hkey]
  · refine
      ⟨{ (lookupStream (LiveStreamNew c1 q1 s).2 (joinKey c2 q2)).getD blankFields with channel_id := c2, quality := q2, livestream_id := joinKey c2 q2 },
        ?_, rfl, rfl⟩
    rw [hkey]
    exact lookup_LiveStreamNew_self c2 q2 _

/-- C9 witness: `("a-1", "2")` and `("a", "1-2")` both serialise to
`"a-1-2"`; the second construction reuses the single instance and overwrites
its attributes. -/
theorem C9_witness :
    (LiveStreamNew "a-1" "2" emptyState).1
        = (LiveStreamNew "a" "1-2" (LiveStreamNew "a-1" "2" emptyState).2).1 ∧
    keysOf (LiveStreamNew "a" "1-2" (LiveStreamNew "a-1" "2" emptyState).2).2
        = keysOf (LiveStreamNew "a-1" "2" emptyState).2 ∧
    ∃ f, lookupStream (LiveStreamNew "a" "1-2" (LiveStreamNew "a-1" "2" emptyState).2).2
          (joinKey "a-1" "2") = some f ∧
      f.channel_id = "a" ∧ f.quality = "1-2" :=
  C9_key_collision "a-1" "2" "a" "1-2" emptyState (by decide) (by decide)

/-- C10: with a non-empty client table, a negative clientID addresses the slot
counted from the end (Python indexing): `disconnect i` with `-len ≤ i < 0`
tombstones slot `len + i`, `read i` pops that slot's queue front, and in
particular `disconnect (-1)` tombstones the most recently appended slot and
decreases `clientsCount` by one when that slot was live. -/
theorem C10_negative_index (s : GlobalState) (self : String) (i : Int)
    (hneg : i < 0) (hge : 0 ≤ (s.clients.length : Int) + i) :
    (∃ s', LiveStream.disconnect self i s = some s' ∧
      s'.clients = s.clients.set ((s.clients.length : Int) + i).toNat none) ∧
    (∀ cc b bs,
      s.clients.get? ((s.clients.length : Int) + i).toNat = some (some cc) →
      cc.queue = some (b :: bs) →
      LiveStream.read self i s = some (ReadResult.data b,
        { s with clients := s.clients.set (((s.clients.length : Int) + i).toNat) (some { cc with queue := some bs }) })) ∧
    (i = -1 → ∀ cc, s.clients.get? (s.clients.length - 1) = some (some cc) →
      ∃ s', LiveStream.disconnect self i s = some s' ∧
        LiveStream.clientsCount s' + 1 = LiveStream.clientsCount s) := by
  have hidx := pyIdx_neg s.clients.length i hneg hge
  refine ⟨⟨_, LiveStream.disconnect_inrange self i s _ hidx, rfl⟩, ?_, ?_⟩
  · intro cc b bs hj hq
    exact LiveStream.read_data self i s _ cc b bs hidx hj hq
  · intro hi cc hj
    have hlen : ((s.clients.length : Int) + i).toNat = s.clients.length - 1 := by
      subst hi
      omega
    refine ⟨_, LiveStream.disconnect_inrange self i s _ hidx, ?_⟩
    show LiveStream.clientsCountL
        (s.clients.set (((s.clients.length : Int) + i).toNat) none) + 1 = _
    rw [hlen]
    exact LiveStream.clientsCountL_set_none s.clients _ cc (by rw [← hlen]; rw [hlen]; exact hj)

/-- C10 witness: on the one-live-client table, `disconnect (-1)` tombstones
slot 0 and drops `clientsCount` from 1 to 0. -/
theorem C10_witness :
    (∃ s', LiveStream.disconnect "ch-1080" (-1) oneClientState = some s' ∧
      s'.clients = oneClientState.clients.set
        ((oneClientState.clients.length : Int) + -1).toNat none) ∧
    (∀ cc b bs,
      oneClientState.clients.get?
          ((oneClientState.clients.length : Int) + -1).toNat = some (some cc) →
      cc.queue = some (b :: bs) →
      LiveStream.read "ch-1080" (-1) oneClientState = some (ReadResult.data b,
        { oneClientState with clients := oneClientState.clients.set (((oneClientState.clients.length : Int) + -1).toNat) (some { cc with queue := some bs }) })) ∧
    ((-1 : Int) = -1 → ∀ cc, oneClientState.clients.get?
          (oneClientState.clients.length - 1) = some (some cc) →
      ∃ s', LiveStream.disconnect "ch-1080" (-1) oneClientState = some s' ∧
        LiveStream.clientsCount s' + 1
          = LiveStream.clientsCount oneClientState) :=
  C10_negative_index oneClientState "ch-1080" (-1) (by decide) (by decide)

theorem statusOf_eq (s : GlobalState) (k : String) (f : StreamFields)
    (h : lookupStream s k = some f) : statusOf s k = some f.status := by
  rw [statusOf, h]
  rfl

theorem detailOf_eq (s : GlobalState) (k : String) (f : StreamFields)
    (h : lookupStream s k = some f) : detailOf s k = some f.detail := by
  rw [detailOf, h]
  rfl

/-- C3: calling `connect` on a stream whose status is `Offline` (well-formed
registry): the call succeeds; if no registered stream is `Idling` there is no
eviction (every other stream's status is unchanged); if at least one stream is
`Idling`, exactly the first one in registry iteration order is transitioned to
`Offline` with the resource-released detail while every other stream
(victim and connecting stream aside) keeps its status; in both cases the
connecting stream ends up `Standby` with the encoder-starting detail. -/
theorem C3_connect_reclaims_one_idler (s : GlobalState) (self ctype : String)
    (now : Nat) (f0 : StreamFields)
    (hwf : wfState s) (hlook : lookupStream s self = some f0)
    (hoff : f0.status = "Offline") :
    ∃ cid s', LiveStream.connect self ctype now s = some (cid, s') ∧
      statusOf s' self = some "Standby" ∧
      detailOf s' self = some "エンコーダーを起動しています…" ∧
      ((keysOf s).filter (fun k => decide (statusOf s k = some "Idling")) = [] →
        ∀ k, ¬ k = self → statusOf s' k = statusOf s k) ∧
      (∀ v vs, (keysOf s).filter (fun k => decide (statusOf s k = some "Idling"))
          = v :: vs →
        statusOf s' v = some "Offline" ∧
        detailOf s' v
          = some "新しいライブストリームが開始されたため、チューナーリソースを解放しました。" ∧
        ∀ k, ¬ k = self → ¬ k = v → statusOf s' k = statusOf s k) := by
  obtain ⟨s1, hgo, hcl1, hlg1, hkeys1, hstat1, hdet1, hupd1, hwf1⟩ :=
    LiveStream.getIdlingGo_spec (keysOf s) s [] hwf (fun k hk => hk)
  rw [List.reverse_nil, List.nil_append] at hgo
  have hidle : LiveStream.getIdlingLiveStream s
      = some ((keysOf s).filter
          (fun k => decide (statusOf s k = some "Idling")), s1) := hgo
  have hconn :=
    LiveStream.connect_eq_offline self ctype now s f0 _ s1 hlook hoff hidle
  have hs1self : statusOf s1 self = some "Offline" := by
    rw [hstat1 self, statusOf_eq s self f0 hlook, hoff]
  cases hfl : (keysOf s).filter (fun k => decide (statusOf s k = some "Idling")) with
  | nil =>
    rw [hfl] at hconn
    simp only [LiveStream.connectVictim] at hconn
    obtain ⟨f1, hl1, hf1⟩ := Option.map_eq_some'.1 hs1self
    have hne1 : ¬ (f1.status = "Standby" ∧
        f1.detail = "エンコーダーを起動しています…") := by
      intro hc
      rw [hf1] at hc
      exact absurd hc.1 (by decide)
    have hl3 := LiveStream.lookup_setStatus_self self "Standby"
      "エンコーダーを起動しています…" now s1 f1 hl1 hne1
    have hl4 : lookupStream (LiveStream.connectAppend ctype f0
        (LiveStream.setStatus self "Standby" "エンコーダーを起動しています…" now s1))
        self = some { f1 with status := "Standby", detail := "エンコーダーを起動しています…", updated_at := now } := hl3
    have hrec := LiveStream.connectRecheck_of_not_idling self now _ _ hl4
      (by intro hh; exact absurd (show ("Standby" : String) = "Idling" from hh) (by decide))
    rw [hrec] at hconn
    refine ⟨_, _, hconn, ?_, ?_, ?_, ?_⟩
    · rw [statusOf_eq _ _ _ hl4]
    · rw [detailOf_eq _ _ _ hl4]
    · intro _ k hk
      have h1 : statusOf (LiveStream.connectAppend ctype f0
          (LiveStream.setStatus self "Standby" "エンコーダーを起動しています…" now s1)) k
          = statusOf (LiveStream.setStatus self "Standby"
            "エンコーダーを起動しています…" now s1) k := rfl
      rw [h1, LiveStream.statusOf_setStatus_ne _ _ _ _ _ _ hk, hstat1 k]
    · intro v vs hcontra
      exact List.noConfusion hcontra
  | cons v vs =>
    rw [hfl] at hconn
    simp only [LiveStream.connectVictim] at hconn
    have hvfilter : v ∈ (keysOf s).filter
        (fun k => decide (statusOf s k = some "Idling")) := by
      rw [hfl]
      exact List.mem_cons_self v vs
    have hvidl : statusOf s v = some "Idling" :=
      of_decide_eq_true (List.mem_filter.1 hvfilter).2
    have hvs : ¬ v = self := by
      intro he
      rw [he, statusOf_eq s self f0 hlook, hoff] at hvidl
      exact absurd hvidl (by decide)
    have hs1v : statusOf s1 v = some "Idling" := by
      rw [hstat1 v]
      exact hvidl
    obtain ⟨f1v, hl1v, hf1v⟩ := Option.map_eq_some'.1 hs1v
    have hnev : ¬ (f1v.status = "Offline" ∧ f1v.detail
        = "新しいライブストリームが開始されたため、チューナーリソースを解放しました。") := by
      intro hc
      rw [hf1v] at hc
      exact absurd hc.1 (by decide)
    have hl2v := LiveStream.lookup_setStatus_self v "Offline"
      "新しいライブストリームが開始されたため、チューナーリソースを解放しました。" now s1 f1v hl1v hnev
    have hs2self : lookupStream (LiveStream.setStatus v "Offline"
        "新しいライブストリームが開始されたため、チューナーリソースを解放しました。" now s1) self
        = lookupStream s1 self :=
      LiveStream.lookup_setStatus_ne v _ _ now s1 self (fun h => hvs h.symm)
    obtain ⟨f1, hl1, hf1⟩ := Option.map_eq_some'.1 hs1self
    have hl1' : lookupStream (LiveStream.setStatus v "Offline"
        "新しいライブストリームが開始されたため、チューナーリソースを解放しました。" now s1) self
        = some f1 := by
      rw [hs2self]
      exact hl1
    have hne1 : ¬ (f1.status = "Standby" ∧
        f1.detail = "エンコーダーを起動しています…") := by
      intro hc
      rw [hf1] at hc
      exact absurd hc.1 (by decide)
    have hl3 := LiveStream.lookup_setStatus_self self "Standby"
      "エンコーダーを起動しています…" now _ f1 hl1' hne1
    have hl4 : lookupStream (LiveStream.connectAppend ctype f0
        (LiveStream.setStatus self "Standby" "エンコーダーを起動しています…" now
          (LiveStream.setStatus v "Offline"
            "新しいライブストリームが開始されたため、チューナーリソースを解放しました。" now s1)))
        self = some { f1 with status := "Standby", detail := "エンコーダーを起動しています…", updated_at := now } := hl3
    have hrec := LiveStream.connectRecheck_of_not_idling self now _ _ hl4
      (by intro hh; exact absurd (show ("Standby" : String) = "Idling" from hh) (by decide))
    rw [hrec] at hconn
    refine ⟨_, _, hconn, ?_, ?_, ?_, ?_⟩
    · rw [statusOf_eq _ _ _ hl4]
    · rw [detailOf_eq _ _ _ hl4]
    · intro hcontra
      exact absurd hcontra (by simp)
    · intro v' vs' heq
      injection heq with hv' hvs'
      subst hv'
      have hbase : ∀ k : String, statusOf (LiveStream.connectAppend ctype f0
          (LiveStream.setStatus self "Standby" "エンコーダーを起動しています…" now
            (LiveStream.setStatus v "Offline"
              "新しいライブストリームが開始されたため、チューナーリソースを解放しました。" now s1))) k
          = statusOf (LiveStream.setStatus self "Standby"
            "エンコーダーを起動しています…" now
            (LiveStream.setStatus v "Offline"
              "新しいライブストリームが開始されたため、チューナーリソースを解放しました。" now s1)) k :=
        fun k => rfl
      refine ⟨?_, ?_, ?_⟩
      · rw [hbase v, LiveStream.statusOf_setStatus_ne _ _ _ _ _ _ hvs]
        rw [statusOf_eq _ _ _ hl2v]
      · have hdbase : detailOf (LiveStream.connectAppend ctype f0
            (LiveStream.setStatus self "Standby" "エンコーダーを起動しています…" now
              (LiveStream.setStatus v "Offline"
                "新しいライブストリームが開始されたため、チューナーリソースを解放しました。" now s1))) v
            = detailOf (LiveStream.setStatus self "Standby"
              "エンコーダーを起動しています…" now
              (LiveStream.setStatus v "Offline"
                "新しいライブストリームが開始されたため、チューナーリソースを解放しました。" now s1)) v := rfl
        rw [hdbase, LiveStream.detailOf_setStatus_ne _ _ _ _ _ _ hvs]
        rw [detailOf_eq _ _ _ hl2v]
      · intro k hk hkv
        rw [hbase k, LiveStream.statusOf_setStatus_ne _ _ _ _ _ _ hk,
          LiveStream.statusOf_setStatus_ne _ _ _ _ _ _ hkv, hstat1 k]

/-- Three freshly constructed streams `a-1`, `b-1`, `c-2`; `a-1` and `b-1`
have been idled by the external monitor, `c-2` is still `Offline`. -/
def idleFixture : GlobalState :=
  LiveStream.setStatus "b-1" "Idling" "idle" 1
    (LiveStream.setStatus "a-1" "Idling" "idle" 1
      ((LiveStreamNew "c" "2"
        ((LiveStreamNew "b" "1" ((LiveStreamNew "a" "1" emptyState).2)).2)).2))

/-- C3 witness: connecting to the `Offline` stream `c-2` while `a-1` and `b-1`
idle evicts exactly the first idler and puts `c-2` in `Standby`. -/
theorem C3_witness :
    ∃ cid s', LiveStream.connect "c-2" "mpegts" 5 idleFixture = some (cid, s') ∧
      statusOf s' "c-2" = some "Standby" ∧
      detailOf s' "c-2" = some "エンコーダーを起動しています…" ∧
      ((keysOf idleFixture).filter
          (fun k => decide (statusOf idleFixture k = some "Idling")) = [] →
        ∀ k, ¬ k = "c-2" → statusOf s' k = statusOf idleFixture k) ∧
      (∀ v vs, (keysOf idleFixture).filter
          (fun k => decide (statusOf idleFixture k = some "Idling")) = v :: vs →
        statusOf s' v = some "Offline" ∧
        detailOf s' v
          = some "新しいライブストリームが開始されたため、チューナーリソースを解放しました。" ∧
        ∀ k, ¬ k = "c-2" → ¬ k = v → statusOf s' k = statusOf idleFixture k) :=
  C3_connect_reclaims_one_idler idleFixture "c-2" "mpegts" 5
    { channel_id := "c", quality := "2", livestream_id := "c-2", status := "Offline", detail := defaultDetail, updated_at := 0 }
    (by decide) (by decide) rfl
